import Mathlib

/-!
Shallow embedding of the dog-profile HTTP service (src/main.py).

A raw spreadsheet row is an association list from column-header strings to
scalar cell values (absent keys read as the Python value None).  The mapper
`map_row_to_dog`, the two endpoints `get_dogs` and `get_dog`, and the
TTL-cached row source `get_all_rows` are translated directly from the source.
Python exceptions raised inside an endpoint body are modelled with an
explicit error case; HTTPException is modelled by a status plus detail.
-/

namespace DogAPI

/-- A scalar cell value as produced by the spreadsheet client: absent (Python
None), a string, or an integer. -/
inductive Value where
  | none : Value
  | str : String → Value
  | int : Int → Value
deriving DecidableEq

/-- Python truthiness of a scalar value: None and empty string and 0 are
falsy, everything else is truthy. -/
def Value.truthy : Value → Bool
  | Value.none => false
  | Value.str s => s != ""
  | Value.int n => n != 0

/-- Python str() of a scalar value. -/
def Value.pyStr : Value → String
  | Value.none => "None"
  | Value.str s => s
  | Value.int n => toString n

/-- Whether a value is a string. -/
def Value.isStr : Value → Bool
  | Value.str _ => true
  | _ => false

/-- Whether a value is a string or the null value (the domain on which the
filter expression of the source evaluates without raising). -/
def Value.isStrOrNone : Value → Bool
  | Value.none => true
  | Value.str _ => true
  | Value.int _ => false

/-- Python `a or b` on scalar values. -/
def pyOr (a b : Value) : Value := if a.truthy then a else b

/-- A raw row: association list from header strings to cell values. -/
abbrev Row : Type := List (String × Value)

/-- Python `row.get(k)`: the value bound to the first occurrence of key k,
or None when the key is absent. -/
def Row.get (r : Row) (k : String) : Value :=
  match List.find? (fun p => p.1 == k) r with
  | Option.some p => p.2
  | Option.none => Value.none

/-- Whether the row binds the key at all. -/
def Row.hasKey (r : Row) (k : String) : Bool :=
  List.any r (fun p => p.1 == k)

structure DogInfo where
  name : Value
  age : Value
  sex : Value
  photo_url : Value
deriving DecidableEq

structure OwnerInfo where
  name : Value
  phone : Value
  preferred_contact : Value
deriving DecidableEq

structure FeedingInfo where
  times : Value
  amount : Value
  allergies : Value
  allergies_detail : Value
deriving DecidableEq

structure WalksInfo where
  frequency : Value
  duration : Value
deriving DecidableEq

structure BehaviorInfo where
  barks_in_reaction_to : Value
  afraid_of : Value
  owners_remark : Value
  medical_conditions : Value
deriving DecidableEq

structure DogProfile where
  dog_id : Value
  dog : DogInfo
  owner : OwnerInfo
  feeding : FeedingInfo
  walks : WalksInfo
  behavior : BehaviorInfo
deriving DecidableEq

/-- Translation of map_row_to_dog from src/main.py.  Header strings are the
exact strings of the source (apostrophes written with the \x27 escape). -/
def map_row_to_dog (row : Row) (idx : Nat) : DogProfile :=
  { dog_id := pyOr (row.get "dog_id") (Value.str (toString idx))
    dog :=
      { name := row.get "Name"
        age := row.get "Age"
        sex := row.get "Sex"
        photo_url := row.get "Photo" }
    owner :=
      { name := row.get "Pet owner\x27s name"
        phone := row.get "Pet owner\x27s phone"
        preferred_contact := row.get "Preferred contact method" }
    feeding :=
      { times := row.get "Feeding times (you can choose more than one answer)"
        amount := row.get "  Amount of food per meal  "
        allergies := row.get "Food or environmental intolerances "
        allergies_detail := row.get "If yes, please details of any food or environmental intolerances:" }
    walks :=
      { frequency := row.get "Going for walks (you can choose more than one answer)"
        duration := row.get "Approximate duration of each walk (in minutes): " }
    behavior :=
      { barks_in_reaction_to := row.get "Barks in reaction to (If none, please just write \x27None\x27):"
        afraid_of := row.get "Is afraid of (If none, please just write \x27None\x27):"
        owners_remark := row.get "Some remarks we need to know:"
        medical_conditions := row.get "Medical conditions / needs (optional)" } }

/-- needle is a prefix of hay (on character lists). -/
def charsPrefix : List Char → List Char → Bool
  | [], _ => true
  | _ :: _, [] => false
  | a :: as, b :: bs => a == b && charsPrefix as bs

/-- needle occurs as a contiguous sublist of hay. -/
def charsInfix (needle : List Char) : List Char → Bool
  | [] => needle.isEmpty
  | b :: bs => charsPrefix needle (b :: bs) || charsInfix needle bs

/-- Python `needle in hay` on strings: contiguous substring test. -/
def strIn (needle hay : String) : Bool :=
  charsInfix needle.toList hay.toList

/-- Python s.lower(): lowercase every character. -/
def pyLower (s : String) : String := String.mk (s.data.map Char.toLower)

/-- An HTTP level outcome of an endpoint body: a value, a raised
HTTPException with status and detail, or an uncaught Python exception
(which the framework turns into a bare 500). -/
inductive Resp (α : Type) where
  | ok : α → Resp α
  | err : Nat → String → Resp α
  | exn : String → Resp α
deriving DecidableEq

/-- The expression `(v or "").lower()` of the filter code: the null value
and falsy scalars become the empty string, a string is lowercased, and a
truthy non-string raises AttributeError. -/
def lowerOrEmpty : Value → Except String String
  | Value.none => Except.ok ""
  | Value.str s => Except.ok (pyLower s)
  | Value.int n =>
      if n == 0 then Except.ok ""
      else Except.error "AttributeError: int object has no attribute lower"

/-- One filter test of get_dogs: `filt and filt.lower() not in (v or "").lower()`.
Returns true when the row is skipped (continue). -/
def filtSkip : Option String → Value → Except String Bool
  | Option.none, _ => Except.ok false
  | Option.some f, v =>
      if f == "" then Except.ok false
      else (lowerOrEmpty v).map (fun hay => !(strIn (pyLower f) hay))

/-- The filtering loop of get_dogs, translated row by row: map the row at
its 1-based position, skip it when a provided dog_name filter does not
match, then when a provided owner_name filter does not match, else keep it.
A raised exception aborts the whole loop. -/
def dogsLoop (d o : Option String) : List Row → Nat → Except String (List DogProfile)
  | [], _ => Except.ok []
  | r :: rs, idx =>
      let p := map_row_to_dog r idx
      match filtSkip d p.dog.name with
      | Except.error e => Except.error e
      | Except.ok true => dogsLoop d o rs (idx + 1)
      | Except.ok false =>
          match filtSkip o p.owner.name with
          | Except.error e => Except.error e
          | Except.ok true => dogsLoop d o rs (idx + 1)
          | Except.ok false =>
              match dogsLoop d o rs (idx + 1) with
              | Except.error e => Except.error e
              | Except.ok ps => Except.ok (p :: ps)

/-- Endpoint GET /dogs.  The result of the row fetch (the value returned by
get_all_rows, or the exception it raised) is passed in as `fetched`. -/
def get_dogs (fetched : Except String (List Row)) (d o : Option String) :
    Resp (List DogProfile) :=
  match fetched with
  | Except.error e => Resp.err 500 ("Failed to read sheet: " ++ e)
  | Except.ok rows =>
      match dogsLoop d o rows 1 with
      | Except.error e => Resp.exn e
      | Except.ok ps => Resp.ok ps

/-- The match test of the get_dog loop:
`str(row.get("dog_id") or str(idx)) == dog_id`. -/
def rowMatchId (r : Row) (idx : Nat) (target : String) : Bool :=
  (pyOr (r.get "dog_id") (Value.str (toString idx))).pyStr == target

/-- The scan of get_dog: first row whose resolved id matches, else 404. -/
def dogLoop (target : String) : List Row → Nat → Resp DogProfile
  | [], _ => Resp.err 404 "Dog not found"
  | r :: rs, idx =>
      if rowMatchId r idx target then Resp.ok (map_row_to_dog r idx)
      else dogLoop target rs (idx + 1)

/-- Endpoint GET /dogs/{dog_id}. -/
def get_dog (fetched : Except String (List Row)) (target : String) :
    Resp DogProfile :=
  match fetched with
  | Except.error e => Resp.err 500 ("Failed to read sheet: " ++ e)
  | Except.ok rows => dogLoop target rows 1

/-- The single-slot TTL cache of the row source: the cached rows together
with the time they were stored, or empty. -/
structure CacheState where
  entry : Option (List Row × Nat)
deriving DecidableEq

/-- Result of one call to the cached row source: the rows or the raised
exception, the cache state afterwards, and whether a remote fetch was
issued by this call. -/
structure RowsResult where
  result : Except String (List Row)
  state : CacheState
  fetched : Bool

/-- One call to get_all_rows under the cached(TTLCache(maxsize 1, ttl))
decorator at time `now`: a stored entry younger than the ttl is returned
without a fetch; otherwise the remote fetch (whose outcome for this call
is `fetch`) runs, a successful result is stored with the current time, and
a failure is propagated without touching the stored entry. -/
def get_all_rows (ttl now : Nat) (fetch : Except String (List Row))
    (st : CacheState) : RowsResult :=
  match st.entry with
  | Option.some (v, t) =>
      if now < t + ttl then
        { result := Except.ok v, state := st, fetched := false }
      else
        match fetch with
        | Except.ok w =>
            { result := Except.ok w
              state := { entry := Option.some (w, now) }
              fetched := true }
        | Except.error e =>
            { result := Except.error e, state := st, fetched := true }
  | Option.none =>
      match fetch with
      | Except.ok w =>
          { result := Except.ok w
            state := { entry := Option.some (w, now) }
            fetched := true }
      | Except.error e =>
          { result := Except.error e, state := st, fetched := true }

/-- Rows mapped in order with their 1-based positions, starting at idx. -/
def mapWithPos : List Row → Nat → List DogProfile
  | [], _ => []
  | r :: rs, idx => map_row_to_dog r idx :: mapWithPos rs (idx + 1)

/-- The filter part of the get_dogs loop acting on already-mapped profiles:
same tests in the same order as dogsLoop, without the mapping step. -/
def profFilter (d o : Option String) : List DogProfile → Except String (List DogProfile)
  | [] => Except.ok []
  | p :: ps =>
      match filtSkip d p.dog.name with
      | Except.error e => Except.error e
      | Except.ok true => profFilter d o ps
      | Except.ok false =>
          match filtSkip o p.owner.name with
          | Except.error e => Except.error e
          | Except.ok true => profFilter d o ps
          | Except.ok false =>
              match profFilter d o ps with
              | Except.error e => Except.error e
              | Except.ok qs => Except.ok (p :: qs)

/-- Modelled from the spec wording of the list operation: the string a
profile field contributes to matching, a null field being treated as the
empty string.  (The claims constrain matching only for string and null
fields; a non-string value contributes the empty string here and the
related theorems restrict to the string-or-null domain.) -/
def specFieldStr : Value → String
  | Value.str s => s
  | _ => ""

/-- Modelled from the spec wording: a provided filter string matches a
field when it occurs as a case-insensitive substring of it; an absent
filter imposes no constraint. -/
def specFieldMatch : Option String → Value → Bool
  | Option.none, _ => true
  | Option.some f, v => strIn (pyLower f) (pyLower (specFieldStr v))

/-- Modelled from the spec wording: a profile satisfies the provided
filters when the dog_name filter matches dog.name and the owner_name
filter matches owner.name; filters are ANDed. -/
def specProfileMatches (d o : Option String) (p : DogProfile) : Bool :=
  specFieldMatch d p.dog.name && specFieldMatch o p.owner.name

/-- The two name fields of a row are strings or null, so the filter
expressions of the source evaluate on them without raising. -/
def rowNamesOk (r : Row) : Bool :=
  (r.get "Name").isStrOrNone && (r.get "Pet owner\x27s name").isStrOrNone

theorem charsPrefix_self : ∀ l : List Char, charsPrefix l l = true
  | [] => rfl
  | a :: as => by simp [charsPrefix, charsPrefix_self as]

theorem charsInfix_self : ∀ l : List Char, charsInfix l l = true
  | [] => rfl
  | a :: as => by simp [charsInfix, charsPrefix_self]

theorem charsInfix_append_left (l : List Char) :
    ∀ pre : List Char, charsInfix l (pre ++ l) = true
  | [] => charsInfix_self l
  | p :: pre => by simp [charsInfix, charsInfix_append_left l pre]

theorem strIn_append_cause (pre e : String) : strIn e (pre ++ e) = true := by
  have h : (pre ++ e).data = pre.data ++ e.data := String.data_append pre e
  simp [strIn, String.toList, h, charsInfix_append_left]

theorem Row.get_of_not_hasKey (r : Row) (k : String)
    (h : Row.hasKey r k = false) : Row.get r k = Value.none := by
  unfold Row.hasKey at h
  unfold Row.get
  have hf : List.find? (fun p => p.1 == k) r = Option.none := by
    rw [List.find?_eq_none]
    intro x hx hbeq
    have : List.any r (fun p => p.1 == k) = true := List.any_of_mem hx hbeq
    rw [h] at this
    exact Bool.false_ne_true this
  rw [hf]

theorem strIn_empty_needle (hay : String) : strIn "" hay = true := by
  unfold strIn
  cases h : ("" : String).toList with
  | nil =>
      cases hay.toList with
      | nil => rfl
      | cons c cs => simp [charsInfix, charsPrefix]
  | cons c cs => simp [String.toList] at h

theorem filtSkip_ok (f : Option String) (v : Value)
    (h : v.isStrOrNone = true) :
    filtSkip f v = Except.ok (!(specFieldMatch f v)) := by
  cases f with
  | none => simp [filtSkip, specFieldMatch]
  | some f =>
      by_cases hf : f = ""
      · subst hf
        simp [filtSkip, specFieldMatch, strIn_empty_needle, pyLower]
      · cases v with
        | none =>
            simp [filtSkip, hf, lowerOrEmpty, Except.map, specFieldMatch,
              specFieldStr, pyLower]
        | str s =>
            simp [filtSkip, hf, lowerOrEmpty, Except.map, specFieldMatch,
              specFieldStr]
        | int n => simp [Value.isStrOrNone] at h

theorem dogsLoop_eq_profFilter (d o : Option String) :
    ∀ (rows : List Row) (idx : Nat),
      dogsLoop d o rows idx = profFilter d o (mapWithPos rows idx)
  | [], _ => rfl
  | r :: rs, idx => by
      simp only [dogsLoop, mapWithPos, profFilter]
      rw [dogsLoop_eq_profFilter d o rs (idx + 1)]

theorem profFilter_filter (d o : Option String) :
    ∀ ps : List DogProfile,
      (∀ p ∈ ps, p.dog.name.isStrOrNone = true ∧ p.owner.name.isStrOrNone = true) →
      profFilter d o ps = Except.ok (ps.filter (specProfileMatches d o))
  | [], _ => rfl
  | p :: ps, h => by
      have hp := h p (List.mem_cons_self p ps)
      have hps : ∀ q ∈ ps, q.dog.name.isStrOrNone = true ∧ q.owner.name.isStrOrNone = true :=
        fun q hq => h q (List.mem_cons_of_mem p hq)
      have ih := profFilter_filter d o ps hps
      simp only [profFilter, filtSkip_ok d p.dog.name hp.1,
        filtSkip_ok o p.owner.name hp.2]
      cases h1 : specFieldMatch d p.dog.name with
      | false => simp [ih, List.filter, specProfileMatches, h1]
      | true =>
          cases h2 : specFieldMatch o p.owner.name with
          | false => simp [ih, List.filter, specProfileMatches, h1, h2]
          | true => simp [ih, List.filter, specProfileMatches, h1, h2]

theorem mem_mapWithPos {p : DogProfile} :
    ∀ (rows : List Row) (idx : Nat), p ∈ mapWithPos rows idx →
      ∃ r ∈ rows, ∃ j, p = map_row_to_dog r j
  | [], _, h => by simp [mapWithPos] at h
  | r :: rs, idx, h => by
      simp only [mapWithPos, List.mem_cons] at h
      cases h with
      | inl h => exact ⟨r, List.mem_cons_self r rs, idx, h⟩
      | inr h =>
          obtain ⟨r', hr', j, hj⟩ := mem_mapWithPos rs (idx + 1) h
          exact ⟨r', List.mem_cons_of_mem r hr', j, hj⟩

theorem mapWithPos_namesOk {rows : List Row} (idx : Nat)
    (h : ∀ r ∈ rows, rowNamesOk r = true) :
    ∀ p ∈ mapWithPos rows idx,
      p.dog.name.isStrOrNone = true ∧ p.owner.name.isStrOrNone = true := by
  intro p hp
  obtain ⟨r, hr, j, hj⟩ := mem_mapWithPos rows idx hp
  have := h r hr
  unfold rowNamesOk at this
  rw [Bool.and_eq_true] at this
  subst hj
  exact this

end DogAPI

namespace DogAPI

/-- Claim C1: the mapped profile carries the row dog_id column value as its
dog_id when that value is truthy, and otherwise the decimal string of the
1-based position. -/
theorem map_dog_id_resolution (row : Row) (idx : Nat) :
    ((row.get "dog_id").truthy = true →
      (map_row_to_dog row idx).dog_id = row.get "dog_id") ∧
    ((row.get "dog_id").truthy = false →
      (map_row_to_dog row idx).dog_id = Value.str (toString idx)) := by
  constructor <;> intro h <;> simp [map_row_to_dog, pyOr, h]

theorem map_dog_id_resolution_witness :
    (map_row_to_dog [("dog_id", Value.str "K9")] 4).dog_id = Value.str "K9" ∧
    (map_row_to_dog [("dog_id", Value.str "")] 4).dog_id = Value.str "4" :=
  ⟨(map_dog_id_resolution [("dog_id", Value.str "K9")] 4).1 (by decide),
   (map_dog_id_resolution [("dog_id", Value.str "")] 4).2 (by decide)⟩

/-- Claim C2: the mapper is a total function; every output field under dog,
owner, feeding, walks and behavior is the lookup of its fixed header, and a
key absent from the row reads as the null value, so absent source values
degrade to null instead of raising. -/
theorem map_total_fields (row : Row) (idx : Nat) :
    (∀ k, Row.hasKey row k = false → Row.get row k = Value.none) ∧
    (map_row_to_dog row idx).dog.name = row.get "Name" ∧
    (map_row_to_dog row idx).dog.age = row.get "Age" ∧
    (map_row_to_dog row idx).dog.sex = row.get "Sex" ∧
    (map_row_to_dog row idx).dog.photo_url = row.get "Photo" ∧
    (map_row_to_dog row idx).owner.name = row.get "Pet owner\x27s name" ∧
    (map_row_to_dog row idx).owner.phone = row.get "Pet owner\x27s phone" ∧
    (map_row_to_dog row idx).owner.preferred_contact = row.get "Preferred contact method" ∧
    (map_row_to_dog row idx).feeding.times = row.get "Feeding times (you can choose more than one answer)" ∧
    (map_row_to_dog row idx).feeding.amount = row.get "  Amount of food per meal  " ∧
    (map_row_to_dog row idx).feeding.allergies = row.get "Food or environmental intolerances " ∧
    (map_row_to_dog row idx).feeding.allergies_detail = row.get "If yes, please details of any food or environmental intolerances:" ∧
    (map_row_to_dog row idx).walks.frequency = row.get "Going for walks (you can choose more than one answer)" ∧
    (map_row_to_dog row idx).walks.duration = row.get "Approximate duration of each walk (in minutes): " ∧
    (map_row_to_dog row idx).behavior.barks_in_reaction_to = row.get "Barks in reaction to (If none, please just write \x27None\x27):" ∧
    (map_row_to_dog row idx).behavior.afraid_of = row.get "Is afraid of (If none, please just write \x27None\x27):" ∧
    (map_row_to_dog row idx).behavior.owners_remark = row.get "Some remarks we need to know:" ∧
    (map_row_to_dog row idx).behavior.medical_conditions = row.get "Medical conditions / needs (optional)" :=
  ⟨fun k h => Row.get_of_not_hasKey row k h, rfl, rfl, rfl, rfl, rfl, rfl, rfl,
   rfl, rfl, rfl, rfl, rfl, rfl, rfl, rfl, rfl, rfl⟩

theorem map_total_fields_witness :
    Row.hasKey ([] : Row) "Name" = false ∧
    Row.get ([] : Row) "Name" = Value.none ∧
    (map_row_to_dog [] 2).dog.name = Row.get ([] : Row) "Name" :=
  ⟨by decide, (map_total_fields [] 2).1 "Name" (by decide),
   (map_total_fields [] 2).2.1⟩

/-- Claim C9 counterexample: a truthy non-string dog_id column value is
carried through uncoerced, so the mapped dog_id is not a string. -/
theorem dog_id_not_always_string :
    (map_row_to_dog [("dog_id", Value.int 7)] 1).dog_id = Value.int 7 ∧
    (map_row_to_dog [("dog_id", Value.int 7)] 1).dog_id.isStr = false := by
  refine ⟨by decide, by decide⟩

/-- Claim C9 amended: the mapped dog_id is a string whenever the row dog_id
column value is falsy (the position string is used) or itself a string;
a truthy non-string column value is carried through unchanged. -/
theorem dog_id_string_cases (row : Row) (idx : Nat)
    (h : (row.get "dog_id").truthy = false ∨ (row.get "dog_id").isStr = true) :
    (map_row_to_dog row idx).dog_id.isStr = true := by
  by_cases ht : (row.get "dog_id").truthy = true
  · have he : (map_row_to_dog row idx).dog_id = row.get "dog_id" := by
      simp [map_row_to_dog, pyOr, ht]
    rw [he]
    cases h with
    | inl h0 => rw [h0] at ht; exact absurd ht (by simp)
    | inr h0 => exact h0
  · have hf : (row.get "dog_id").truthy = false := by
      revert ht; cases (row.get "dog_id").truthy <;> simp
    have he : (map_row_to_dog row idx).dog_id = Value.str (toString idx) := by
      simp [map_row_to_dog, pyOr, hf]
    rw [he]; rfl

theorem dog_id_string_cases_witness :
    (map_row_to_dog [("dog_id", Value.str "a")] 1).dog_id.isStr = true :=
  dog_id_string_cases [("dog_id", Value.str "a")] 1 (Or.inr (by decide))

/-- Claim C10: when the dog_id column holds a truthy integer n, the lookup
test of get_dog compares against the decimal string of n (string coercion),
while the mapped profile still carries the raw integer; on a one-row sheet
the lookup succeeds exactly for that decimal string. -/
theorem lookup_coerced_match (n : Int) (r : Row) (idx : Nat) (s : String)
    (hv : r.get "dog_id" = Value.int n) (hn : n ≠ 0) :
    (rowMatchId r idx s = true ↔ s = toString n) ∧
    (map_row_to_dog r idx).dog_id = Value.int n ∧
    (get_dog (Except.ok [r]) s = Resp.ok (map_row_to_dog r 1) ↔ s = toString n) := by
  have ht : (Value.int n).truthy = true := by simp [Value.truthy, hn]
  have hm : ∀ j : Nat, rowMatchId r j s = (toString n == s) := by
    intro j
    unfold rowMatchId
    rw [hv]
    simp [pyOr, ht, Value.pyStr]
  have hiff : ∀ j : Nat, (rowMatchId r j s = true ↔ s = toString n) := by
    intro j
    rw [hm j]
    constructor
    · intro hbeq
      exact (beq_iff_eq.mp hbeq).symm
    · intro hse
      exact beq_iff_eq.mpr hse.symm
  refine ⟨hiff idx, ?_, ?_⟩
  · simp [map_row_to_dog, pyOr, hv, ht]
  · constructor
    · intro hok
      cases hmm : rowMatchId r 1 s with
      | true => exact (hiff 1).mp hmm
      | false => simp [get_dog, dogLoop, hmm] at hok
    · intro hse
      have := (hiff 1).mpr hse
      simp [get_dog, dogLoop, this]

theorem lookup_coerced_match_witness :
    rowMatchId [("dog_id", Value.int 5)] 1 "5" = true ∧
    (map_row_to_dog [("dog_id", Value.int 5)] 1).dog_id = Value.int 5 :=
  ⟨(lookup_coerced_match 5 [("dog_id", Value.int 5)] 1 "5" (by decide)
      (by decide)).1.mpr (by decide),
   (lookup_coerced_match 5 [("dog_id", Value.int 5)] 1 "5" (by decide)
      (by decide)).2.1⟩

/-- Claim C3: on rows whose two name fields are strings or null (the domain
on which the claim defines matching), GET /dogs returns exactly the mapped
profiles, in row order, that satisfy every provided filter, where matching
is case-insensitive substring containment, a null field reading as the
empty string, filters ANDed, and an absent filter unconstraining. -/
theorem get_dogs_filter_spec (rows : List Row) (d o : Option String)
    (h : ∀ r ∈ rows, rowNamesOk r = true) :
    get_dogs (Except.ok rows) d o =
      Resp.ok ((mapWithPos rows 1).filter (specProfileMatches d o)) := by
  have hd : dogsLoop d o rows 1 =
      Except.ok ((mapWithPos rows 1).filter (specProfileMatches d o)) := by
    rw [dogsLoop_eq_profFilter]
    exact profFilter_filter d o _ (mapWithPos_namesOk 1 h)
  simp [get_dogs, hd]

theorem get_dogs_filter_spec_witness :
    get_dogs
      (Except.ok [[("Name", Value.str "T-Rex Jr"),
                   ("Pet owner\x27s name", Value.str "Jane")],
                  [("Name", Value.str "Bolt")]])
      (Option.some "Rex") Option.none =
    Resp.ok ((mapWithPos [[("Name", Value.str "T-Rex Jr"),
                           ("Pet owner\x27s name", Value.str "Jane")],
                          [("Name", Value.str "Bolt")]] 1).filter
      (specProfileMatches (Option.some "Rex") Option.none)) :=
  get_dogs_filter_spec _ (Option.some "Rex") Option.none (by decide)

/-- Pointwise split of the ANDed filter predicate into its two one-filter
forms. -/
theorem specProfileMatches_split (d o : Option String) (p : DogProfile) :
    specProfileMatches d o p =
      (specProfileMatches d Option.none p && specProfileMatches Option.none o p) := by
  simp [specProfileMatches, specFieldMatch]

/-- Claim C4: on rows whose name fields are strings or null, filtering is
idempotent, the dog_name and owner_name filters commute, and applying both
yields the intersection of applying each alone (qs below is the both-filters
result, as and bs the one-filter results). -/
theorem filters_algebra (rows : List Row) (d o : Option String)
    (h : ∀ r ∈ rows, rowNamesOk r = true) :
    ∃ qs as bs : List DogProfile,
      get_dogs (Except.ok rows) d o = Resp.ok qs ∧
      get_dogs (Except.ok rows) d Option.none = Resp.ok as ∧
      get_dogs (Except.ok rows) Option.none o = Resp.ok bs ∧
      profFilter d o qs = Except.ok qs ∧
      profFilter Option.none o as = Except.ok qs ∧
      profFilter d Option.none bs = Except.ok qs ∧
      qs = List.filter (fun p => decide (p ∈ bs)) as := by
  have hOk := mapWithPos_namesOk 1 h
  set ps := mapWithPos rows 1 with hps
  set pd := specProfileMatches d Option.none with hpd
  set po := specProfileMatches Option.none o with hpo
  have hsplit : ∀ p, specProfileMatches d o p = (pd p && po p) :=
    fun p => specProfileMatches_split d o p
  refine ⟨ps.filter (specProfileMatches d o), ps.filter pd, ps.filter po,
    get_dogs_filter_spec rows d o h, get_dogs_filter_spec rows d Option.none h,
    get_dogs_filter_spec rows Option.none o h, ?_, ?_, ?_, ?_⟩
  · rw [profFilter_filter d o _
      (fun p hp => hOk p (List.mem_of_mem_filter hp))]
    congr 1
    exact List.filter_eq_self.mpr (fun a ha => List.of_mem_filter ha)
  · rw [profFilter_filter Option.none o _
      (fun p hp => hOk p (List.mem_of_mem_filter hp))]
    congr 1
    rw [List.filter_filter]
    exact List.filter_congr (fun a _ => by rw [hsplit a, Bool.and_comm])
  · rw [profFilter_filter d Option.none _
      (fun p hp => hOk p (List.mem_of_mem_filter hp))]
    congr 1
    rw [List.filter_filter]
    exact List.filter_congr (fun a _ => by rw [hsplit a])
  · have hmem : List.filter (fun p => decide (p ∈ ps.filter po)) (ps.filter pd) =
        List.filter po (ps.filter pd) := by
      refine List.filter_congr (fun a ha => ?_)
      have haps : a ∈ ps := List.mem_of_mem_filter ha
      cases hq : po a with
      | true => simp [List.mem_filter, haps, hq]
      | false => simp [List.mem_filter, haps, hq]
    rw [hmem, List.filter_filter]
    exact List.filter_congr (fun a _ => by rw [hsplit a, Bool.and_comm])

theorem filters_algebra_witness :
    ∃ qs as bs : List DogProfile,
      get_dogs (Except.ok [[("Name", Value.str "Rex"),
                            ("Pet owner\x27s name", Value.str "Jane Doe")],
                           [("Name", Value.str "Rex"),
                            ("Pet owner\x27s name", Value.str "Bob")],
                           [("Name", Value.str "Fido"),
                            ("Pet owner\x27s name", Value.str "jane")]])
          (Option.some "rex") (Option.some "jane") = Resp.ok qs ∧
      get_dogs (Except.ok [[("Name", Value.str "Rex"),
                            ("Pet owner\x27s name", Value.str "Jane Doe")],
                           [("Name", Value.str "Rex"),
                            ("Pet owner\x27s name", Value.str "Bob")],
                           [("Name", Value.str "Fido"),
                            ("Pet owner\x27s name", Value.str "jane")]])
          (Option.some "rex") Option.none = Resp.ok as ∧
      get_dogs (Except.ok [[("Name", Value.str "Rex"),
                            ("Pet owner\x27s name", Value.str "Jane Doe")],
                           [("Name", Value.str "Rex"),
                            ("Pet owner\x27s name", Value.str "Bob")],
                           [("Name", Value.str "Fido"),
                            ("Pet owner\x27s name", Value.str "jane")]])
          Option.none (Option.some "jane") = Resp.ok bs ∧
      profFilter (Option.some "rex") (Option.some "jane") qs = Except.ok qs ∧
      profFilter Option.none (Option.some "jane") as = Except.ok qs ∧
      profFilter (Option.some "rex") Option.none bs = Except.ok qs ∧
      qs = List.filter (fun p => decide (p ∈ bs)) as :=
  filters_algebra _ (Option.some "rex") (Option.some "jane") (by decide)

/-- The scan of get_dog returns a profile exactly when some row matches the
requested id and no earlier row does, and the profile is the mapped first
matching row (positions counted from idx). -/
theorem dogLoop_ok_iff (target : String) :
    ∀ (rows : List Row) (idx : Nat) (p : DogProfile),
      dogLoop target rows idx = Resp.ok p ↔
      ∃ i r, rows[i]? = Option.some r ∧ rowMatchId r (idx + i) target = true ∧
        p = map_row_to_dog r (idx + i) ∧
        ∀ j q, j < i → rows[j]? = Option.some q →
          rowMatchId q (idx + j) target = false
  | [], idx, p => by
      simp [dogLoop]
  | r :: rs, idx, p => by
      cases hm : rowMatchId r idx target with
      | true =>
          simp only [dogLoop, hm, if_true]
          constructor
          · intro hok
            have hp : p = map_row_to_dog r idx := by
              cases hok; rfl
            refine ⟨0, r, List.getElem?_cons_zero, ?_, ?_, ?_⟩
            · rwa [Nat.add_zero]
            · rwa [Nat.add_zero]
            · intro j q hj _
              exact absurd hj (Nat.not_lt_zero j)
          · rintro ⟨i, r', hget, hmatch, hp, hearlier⟩
            cases i with
            | zero =>
                rw [List.getElem?_cons_zero] at hget
                cases hget
                rw [Nat.add_zero] at hp
                rw [hp]
            | succ i' =>
                have h0 := hearlier 0 r (Nat.succ_pos i') List.getElem?_cons_zero
                rw [Nat.add_zero] at h0
                rw [hm] at h0
                exact absurd h0 (by simp)
      | false =>
          simp only [dogLoop, hm, Bool.false_eq_true, if_false]
          rw [dogLoop_ok_iff target rs (idx + 1) p]
          constructor
          · rintro ⟨i, r', hget, hmatch, hp, hearlier⟩
            refine ⟨i + 1, r', ?_, ?_, ?_, ?_⟩
            · rwa [List.getElem?_cons_succ]
            · rwa [show idx + (i + 1) = idx + 1 + i by omega]
            · rwa [show idx + (i + 1) = idx + 1 + i by omega]
            · intro j q hj hq
              cases j with
              | zero =>
                  rw [List.getElem?_cons_zero] at hq
                  cases hq
                  rwa [Nat.add_zero]
              | succ j' =>
                  rw [List.getElem?_cons_succ] at hq
                  have := hearlier j' q (by omega) hq
                  rwa [show idx + (j' + 1) = idx + 1 + j' by omega]
          · rintro ⟨i, r', hget, hmatch, hp, hearlier⟩
            cases i with
            | zero =>
                rw [List.getElem?_cons_zero] at hget
                cases hget
                rw [Nat.add_zero] at hmatch
                rw [hm] at hmatch
                exact absurd hmatch (by simp)
            | succ i' =>
                rw [List.getElem?_cons_succ] at hget
                refine ⟨i', r', hget, ?_, ?_, ?_⟩
                · rwa [show idx + 1 + i' = idx + (i' + 1) by omega]
                · rwa [show idx + 1 + i' = idx + (i' + 1) by omega]
                · intro j q hj hq
                  have := hearlier (j + 1) q (by omega)
                    (by rwa [List.getElem?_cons_succ])
                  rwa [show idx + (j + 1) = idx + 1 + j by omega] at this

/-- When no row matches, the scan of get_dog falls through to 404. -/
theorem dogLoop_notfound (target : String) :
    ∀ (rows : List Row) (idx : Nat),
      (∀ i r, rows[i]? = Option.some r → rowMatchId r (idx + i) target = false) →
      dogLoop target rows idx = Resp.err 404 "Dog not found"
  | [], _, _ => rfl
  | r :: rs, idx, h => by
      have h0 := h 0 r List.getElem?_cons_zero
      rw [Nat.add_zero] at h0
      simp only [dogLoop, h0, Bool.false_eq_true, if_false]
      refine dogLoop_notfound target rs (idx + 1) (fun i q hq => ?_)
      have := h (i + 1) q (by rwa [List.getElem?_cons_succ])
      rwa [show idx + (i + 1) = idx + 1 + i by omega] at this

/-- Claim C5: GET /dogs/(dog_id) scans the mapped profiles in row order and
returns the first (lowest position) profile whose resolved id string-equals
the requested id; it reports 404 when no row matches, and in particular on
an empty row set. -/
theorem get_dog_first_match (rows : List Row) (target : String) :
    (∀ p, get_dog (Except.ok rows) target = Resp.ok p ↔
      ∃ i r, rows[i]? = Option.some r ∧ rowMatchId r (i + 1) target = true ∧
        p = map_row_to_dog r (i + 1) ∧
        ∀ j q, j < i → rows[j]? = Option.some q →
          rowMatchId q (j + 1) target = false) ∧
    ((∀ i r, rows[i]? = Option.some r → rowMatchId r (i + 1) target = false) →
      get_dog (Except.ok rows) target = Resp.err 404 "Dog not found") ∧
    get_dog (Except.ok ([] : List Row)) target = Resp.err 404 "Dog not found" := by
  refine ⟨?_, ?_, rfl⟩
  · intro p
    have := dogLoop_ok_iff target rows 1 p
    simp only [Nat.add_comm 1] at this
    exact this
  · intro h
    have := dogLoop_notfound target rows 1 (fun i r hr => by
      rw [Nat.add_comm 1 i]
      exact h i r hr)
    exact this

theorem get_dog_first_match_witness :
    get_dog (Except.ok [[("dog_id", Value.str "a")],
                        [("dog_id", Value.str "a")]]) "a" =
      Resp.ok (map_row_to_dog [("dog_id", Value.str "a")] 1) :=
  ((get_dog_first_match [[("dog_id", Value.str "a")],
      [("dog_id", Value.str "a")]] "a").1 _).mpr
    ⟨0, [("dog_id", Value.str "a")], rfl, by decide, rfl,
     fun j q hj _ => absurd hj (Nat.not_lt_zero j)⟩

/-- Claim C6: a first call on an empty cache fetches and stores the rows
with their fetch time; a second call whose time is still within the TTL of
the stored entry issues no remote fetch and returns the cached rows
regardless of what a fetch would produce; a call at or past the end of the
TTL window issues a new remote fetch. -/
theorem cache_ttl_behavior (ttl t0 t1 t2 : Nat) (v w : List Row)
    (f1 f2 : Except String (List Row))
    (h1 : t1 < t0 + ttl) (h2 : t0 + ttl ≤ t2) :
    get_all_rows ttl t0 (Except.ok w) { entry := Option.none } =
      { result := Except.ok w, state := { entry := Option.some (w, t0) },
        fetched := true } ∧
    get_all_rows ttl t1 f1 { entry := Option.some (v, t0) } =
      { result := Except.ok v, state := { entry := Option.some (v, t0) },
        fetched := false } ∧
    (get_all_rows ttl t2 f2 { entry := Option.some (v, t0) }).fetched = true := by
  refine ⟨rfl, ?_, ?_⟩
  · simp [get_all_rows, h1]
  · have hlt : ¬ t2 < t0 + ttl := by omega
    cases f2 with
    | ok w2 => simp [get_all_rows, hlt]
    | error e => simp [get_all_rows, hlt]

theorem cache_ttl_behavior_witness :
    get_all_rows 30 0 (Except.ok []) { entry := Option.none } =
      { result := Except.ok ([] : List Row),
        state := { entry := Option.some (([] : List Row), 0) },
        fetched := true } ∧
    get_all_rows 30 10 (Except.error "down") { entry := Option.some (([] : List Row), 0) } =
      { result := Except.ok ([] : List Row),
        state := { entry := Option.some (([] : List Row), 0) },
        fetched := false } ∧
    (get_all_rows 30 30 (Except.ok []) { entry := Option.some (([] : List Row), 0) }).fetched = true :=
  cache_ttl_behavior 30 0 10 30 [] [] (Except.error "down") (Except.ok [])
    (by omega) (by omega)

/-- Claim C7: a failed remote fetch leaves the cache state unchanged; with
no prior cached value the failure is propagated to the caller and nothing
is stored; a still-valid cached entry is served without even attempting
the failing fetch. -/
theorem cache_failed_fetch (ttl now : Nat) (st : CacheState) (e : String)
    (v : List Row) (t : Nat) :
    (get_all_rows ttl now (Except.error e) st).state = st ∧
    (st.entry = Option.none →
      (get_all_rows ttl now (Except.error e) st).result = Except.error e) ∧
    (st.entry = Option.some (v, t) → now < t + ttl →
      (get_all_rows ttl now (Except.error e) st).result = Except.ok v ∧
      (get_all_rows ttl now (Except.error e) st).fetched = false) := by
  refine ⟨?_, ?_, ?_⟩
  · obtain ⟨entry⟩ := st
    cases entry with
    | none => rfl
    | some vt =>
        obtain ⟨v', t'⟩ := vt
        by_cases hv : now < t' + ttl
        · simp [get_all_rows, hv]
        · simp [get_all_rows, hv]
  · intro hn
    obtain ⟨entry⟩ := st
    cases hn
    rfl
  · intro hs hvalid
    obtain ⟨entry⟩ := st
    cases hs
    constructor
    · simp [get_all_rows, hvalid]
    · simp [get_all_rows, hvalid]

theorem cache_failed_fetch_witness :
    (get_all_rows 30 5 (Except.error "boom") { entry := Option.some (([] : List Row), 0) }).state =
      { entry := Option.some (([] : List Row), 0) } ∧
    (get_all_rows 30 5 (Except.error "boom") { entry := Option.some (([] : List Row), 0) }).result =
      Except.ok ([] : List Row) ∧
    (get_all_rows 30 40 (Except.error "boom") { entry := (Option.none : Option (List Row × Nat)) }).result =
      Except.error "boom" :=
  ⟨(cache_failed_fetch 30 5 { entry := Option.some ([], 0) } "boom" [] 0).1,
   ((cache_failed_fetch 30 5 { entry := Option.some ([], 0) } "boom" [] 0).2.2
      rfl (by omega)).1,
   (cache_failed_fetch 30 40 { entry := Option.none } "boom" [] 0).2.1 rfl⟩

/-- Claim C8: when the row fetch raises, GET /dogs and GET /dogs/(dog_id)
both return an HTTPException with status 500 whose detail string contains
the underlying cause; the endpoints are total on a failed fetch, so the
failure never escapes the request boundary. -/
theorem fetch_error_responses (e : String) (d o : Option String)
    (target : String) :
    get_dogs (Except.error e) d o =
      Resp.err 500 ("Failed to read sheet: " ++ e) ∧
    get_dog (Except.error e) target =
      Resp.err 500 ("Failed to read sheet: " ++ e) ∧
    strIn e ("Failed to read sheet: " ++ e) = true :=
  ⟨rfl, rfl, strIn_append_cause "Failed to read sheet: " e⟩

end DogAPI
